import Mathlib

/-!
Verification of the stoma parameter-marker and field-classification subsystem.

This file gives a shallow embedding, in Lean, of the code in `src/params.py`
and `src/routing.py`: the four parameter markers (`Query`, `Path`, `Header`,
`Body` and their common base `Param`), the frozen `RouteMeta` value, the
`APIRouter` decorator factory, and the field-classification algorithm
`APIRoute._collect_params` together with its helpers
`_get_param_info_from_annotations` and `_get_param_name`.

Python values that can appear as field values are modelled by the inductive
type `Value`; Python exceptions that the embedded code can raise are modelled
by `PyError`.  Mutable dictionaries become association lists with the usual
insert-or-overwrite semantics of a Python `dict`.
-/

namespace Stoma

/-- A Python runtime value, as far as the classification subsystem observes
them: `Value.none` is Python's `None`. -/
inductive Value where
  | none
  | int (n : Int)
  | str (s : String)
  | bool (b : Bool)
  | list (xs : List Value)
  | dict (entries : List (String × Value))

/-- `ParamTypes` enumeration from `src/params.py` (lines 26-32). -/
inductive ParamTypes where
  | query
  | header
  | path
  | body
deriving Repr, DecidableEq

/-- The Python exceptions the embedded code can raise.

The repository's own exception module (`src/exceptions.py`) defines
`StomaError`, `ValidationError`, `HTTPError` and `ParseError` only; no
`ConfigurationError` class exists anywhere in the source.  The
`configurationError` constructor is nevertheless included so that statements
about that (hypothetical) exception can be expressed and settled.

`typeError` and `attributeError` model Python's built-in `TypeError` and
`AttributeError`; `frozenInstance` models the pydantic validation error
raised when assigning to a field of a model declared with
`ConfigDict(frozen=True)`. -/
inductive PyError where
  | typeError (msg : String)
  | attributeError (attr : String)
  | configurationError (msg : String)
  | frozenInstance
deriving Repr, DecidableEq

/-- Whether an error is the (spec-invented) `ConfigurationError`. -/
def PyError.isConfigurationError : PyError → Bool
  | PyError.configurationError _ => true
  | _ => false

/-- The runtime attributes of a constructed `Param` marker object
(`src/params.py`, class `Param` and its four subclasses) that the
classification subsystem reads.

`in_` is declared on `Param` only as an annotation (`in_: ParamTypes`,
line 44) with no value; each concrete subclass sets it as a class
attribute.  `Option.none` therefore models a marker on which the `in_`
attribute is absent, so that reading it raises `AttributeError`.

`convert_underscores` is set only by `Header.__init__` (line 401);
`embed` and `media_type` only by `Body.__init__` (lines 501-502); on
the other marker kinds those attributes are absent (`Option.none`).

`default` is the stored pydantic default: `Option.none` models
`PydanticUndefined` (every concrete marker passes `default=...`, which
pydantic's `FieldInfo` converts to `PydanticUndefined`). -/
structure Param where
  in_ : Option ParamTypes := Option.none
  alias_ : Option String := Option.none
  default : Option Value := Option.none
  has_default_factory : Bool := false
  convert_underscores : Option Bool := Option.none
  embed : Option Bool := Option.none
  media_type : Option String := Option.none

/-- Arguments a caller can supply to a marker constructor, as far as the
claims need them.  `default` models a caller-supplied literal `default=`
keyword argument (`Option.none` = not supplied); since none of
`Query.__init__`, `Header.__init__`, `Body.__init__`, `Path.__init__`
declares a `default` parameter, such an argument is captured by their
`**extra`.  `default_factory` records whether a `default_factory=` argument
was supplied. -/
structure MarkerArgs where
  default : Option Value := Option.none
  default_factory : Bool := false
  alias_ : Option String := Option.none
  convert_underscores : Bool := true
  embed : Bool := false
  media_type : String := "application/json"

/-- The `TypeError` Python raises when a keyword captured by `**extra` is
passed again explicitly in the `super().__init__(default=..., **extra)`
call of each marker subclass. -/
def dupDefaultError : PyError :=
  PyError.typeError "got multiple values for keyword argument 'default'"

/-- Shallow embedding of `Query.__init__` (`src/params.py` lines 273-336).
`Query` exposes no `default` parameter, so a caller-supplied literal
`default` lands in `**extra`; the `super().__init__` call then passes the
`default` keyword both explicitly (`default=_Unset`) and via `**extra`,
which Python rejects with a `TypeError` before any marker is built.
Otherwise the marker is constructed with `in_ = ParamTypes.query` and the
stored default is `PydanticUndefined` (pydantic converts the `...`
sentinel). -/
def Query.make (args : MarkerArgs) : Except PyError Param :=
  if args.default.isSome then
    Except.error dupDefaultError
  else
    Except.ok { in_ := some ParamTypes.query, alias_ := args.alias_,
                default := Option.none, has_default_factory := args.default_factory }

/-- Shallow embedding of `Path.__init__` (`src/params.py` lines 184-247);
same `**extra` forwarding as `Query.make`. -/
def Path.make (args : MarkerArgs) : Except PyError Param :=
  if args.default.isSome then
    Except.error dupDefaultError
  else
    Except.ok { in_ := some ParamTypes.path, alias_ := args.alias_,
                default := Option.none, has_default_factory := args.default_factory }

/-- Shallow embedding of `Header.__init__` (`src/params.py` lines 362-430);
additionally stores `convert_underscores` (default `true`, line 371) on the
instance before delegating. -/
def Header.make (args : MarkerArgs) : Except PyError Param :=
  if args.default.isSome then
    Except.error dupDefaultError
  else
    Except.ok { in_ := some ParamTypes.header, alias_ := args.alias_,
                default := Option.none, has_default_factory := args.default_factory,
                convert_underscores := some args.convert_underscores }

/-- Shallow embedding of `Body.__init__` (`src/params.py` lines 461-531);
additionally stores `embed` (default `false`) and `media_type`
(default `"application/json"`). -/
def Body.make (args : MarkerArgs) : Except PyError Param :=
  if args.default.isSome then
    Except.error dupDefaultError
  else
    Except.ok { in_ := some ParamTypes.body, alias_ := args.alias_,
                default := Option.none, has_default_factory := args.default_factory,
                embed := some args.embed, media_type := some args.media_type }

/-- Shallow embedding of constructing a bare `Param` marker
(`src/params.py` lines 46-160).  `Param.__init__` does accept a `default`
parameter directly, and the base class never sets the `in_` attribute, so
a bare `Param(...)` object has no discriminable kind. -/
def Param.make (args : MarkerArgs) : Except PyError Param :=
  if args.default.isSome && args.default_factory then
    Except.error (PyError.typeError "cannot specify both default and default_factory")
  else
    Except.ok { in_ := Option.none, alias_ := args.alias_,
                default := args.default, has_default_factory := args.default_factory }

/-- One entry of the metadata tuple of a Python `Annotated[T, m1, m2, ...]`
type: either a `Param` marker object or some other metadata object (a
pydantic constraint, a plain string, ...). -/
inductive AnnItem where
  | param (p : Param)
  | other

/-- A declared type of one field in a class's own `__annotations__` table:
either a plain (non-`Annotated`) type, or `Annotated[T, m1, ..., mk]` with
its metadata tuple `[m1, ..., mk]` (so `get_args` returns `1 + k`
elements). -/
inductive FieldAnn where
  | plain
  | annotated (metadata : List AnnItem)

/-- Shallow embedding of `RouteMeta` (`src/routing.py` lines 21-45): the
route metadata value injected into an endpoint class by the decorator.
The pydantic `model_config = ConfigDict(frozen=True)` immutability is
modelled separately by `RouteMeta.setattr` below. -/
structure RouteMeta where
  method : String
  path : String
  servers : Option (List String) := Option.none
deriving Repr, DecidableEq

/-- An endpoint class, as the classification code observes it.

`model_fields` is the key list of pydantic's `model_fields` in declaration
order — it includes fields inherited from base classes.  `annotations` is
the class's **own** `__annotations__` table (Python ≥ 3.10 resolves
`cls.__annotations__` to the class's own table, so inherited fields are
absent from it).  `route_meta` is the `_route_meta` class attribute
injected by the route decorator, absent before decoration. -/
structure EndpointClass where
  model_fields : List String
  annotations : List (String × FieldAnn)
  route_meta : Option RouteMeta := Option.none

/-- Shallow embedding of `APIRoute._get_param_info_from_annotations`
(`src/routing.py` lines 135-168): look the field up in the class's own
`__annotations__`; if the declared type is `Annotated[...]` with at least
two `get_args` entries, return the first metadata item that is a `Param`
instance; otherwise `None`. -/
def getParamInfoFromAnns (anns : List (String × FieldAnn)) (field_name : String) :
    Option Param :=
  match List.lookup field_name anns with
  | Option.none => Option.none
  | some FieldAnn.plain => Option.none
  | some (FieldAnn.annotated metadata) =>
    if metadata.length + 1 < 2 then Option.none
    else metadata.findSome? (fun m =>
      match m with
      | AnnItem.param p => some p
      | AnnItem.other => Option.none)

/-- Shallow embedding of `APIRoute._get_param_name` (`src/routing.py` lines
191-205): `if param_info.alias: return param_info.alias; return field_name`.
Python truthiness makes both `None` and the empty string fall through to the
field name.  Note that the code never consults `convert_underscores`. -/
def getParamName (param_info : Param) (field_name : String) : String :=
  match param_info.alias_ with
  | some a => if a = "" then field_name else a
  | Option.none => field_name

/-- The result tuple of `_collect_params`: the three parameter dicts and the
body value (`body_data` starts out as Python `None`). -/
structure CollectResult where
  query_params : List (String × Value)
  path_params : List (String × Value)
  header_params : List (String × Value)
  body_data : Value

/-- Python `d[k] = v` on a `dict` modelled as an association list: overwrite
in place if the key exists, else append. -/
def dictInsert (d : List (String × Value)) (k : String) (v : Value) :
    List (String × Value) :=
  if d.any (fun kv => kv.1 = k) then
    d.map (fun kv => if kv.1 = k then (k, v) else kv)
  else d ++ [(k, v)]

/-- `getattr(self, field_name)` on a constructed pydantic instance, the
instance being modelled as an association list from field names to values. -/
def getattrVal (inst : List (String × Value)) (field_name : String) : Value :=
  (List.lookup field_name inst).getD Value.none

/-- One iteration of the `for field_name in self.__class__.model_fields`
loop of `APIRoute._collect_params` (`src/routing.py` lines 107-131): fetch
the field value, look up its marker in the class's own `__annotations__`
(skip the field when there is none), resolve the wire name, then dispatch
on `param_info.in_` — an attribute that is absent on a bare `Param`
marker, in which case the first `param_info.in_` access raises
`AttributeError`. -/
def collectStep (anns : List (String × FieldAnn)) (inst : List (String × Value))
    (acc : CollectResult) (field_name : String) : Except PyError CollectResult :=
  match getParamInfoFromAnns anns field_name with
  | Option.none => Except.ok acc
  | some param_info =>
    match param_info.in_ with
    | Option.none => Except.error (PyError.attributeError "in_")
    | some ParamTypes.query =>
      Except.ok { acc with
        query_params := dictInsert acc.query_params (getParamName param_info field_name)
          (getattrVal inst field_name) }
    | some ParamTypes.path =>
      Except.ok { acc with
        path_params := dictInsert acc.path_params (getParamName param_info field_name)
          (getattrVal inst field_name) }
    | some ParamTypes.header =>
      Except.ok { acc with
        header_params := dictInsert acc.header_params (getParamName param_info field_name)
          (getattrVal inst field_name) }
    | some ParamTypes.body =>
      Except.ok { acc with body_data := getattrVal inst field_name }

/-- The field loop of `_collect_params`, threading the accumulated buckets
through `collectStep` over the remaining field names. -/
def collectGo (anns : List (String × FieldAnn)) (inst : List (String × Value)) :
    List String → CollectResult → Except PyError CollectResult
  | [], acc => Except.ok acc
  | field_name :: rest, acc =>
    match collectStep anns inst acc field_name with
    | Except.ok acc' => collectGo anns inst rest acc'
    | Except.error e => Except.error e

/-- Shallow embedding of `APIRoute._collect_params` (`src/routing.py` lines
72-133): iterate all `model_fields` in declaration order starting from
empty buckets and `body_data = None`. -/
def collectParams (cls : EndpointClass) (inst : List (String × Value)) :
    Except PyError CollectResult :=
  collectGo cls.annotations inst cls.model_fields
    { query_params := [], path_params := [], header_params := [], body_data := Value.none }

/-- pydantic model configuration, as far as the embedding needs it:
`ConfigDict(frozen=True)` forbids attribute assignment after construction. -/
structure ModelConfig where
  frozen : Bool
deriving Repr, DecidableEq

/-- `RouteMeta.model_config = ConfigDict(frozen=True)` (`src/routing.py`
line 41). -/
def RouteMeta.model_config : ModelConfig := { frozen := true }

/-- An attempted attribute assignment on a `RouteMeta` object: the target
field together with the value to store. -/
inductive RouteMetaSet where
  | method (v : String)
  | path (v : String)
  | servers (v : Option (List String))

/-- The in-place update an assignment would perform if it were allowed. -/
def RouteMeta.assign (m : RouteMeta) : RouteMetaSet → RouteMeta
  | RouteMetaSet.method v => { m with method := v }
  | RouteMetaSet.path v => { m with path := v }
  | RouteMetaSet.servers v => { m with servers := v }

/-- pydantic `BaseModel.__setattr__` under a model configuration: on a
frozen model it raises a frozen-instance validation error and leaves the
instance unchanged; otherwise it performs the update.  The result pairs the
resulting instance state with the raised error, if any. -/
def baseModelSetattr (cfg : ModelConfig) (upd : α → α) (m : α) : α × Option PyError :=
  if cfg.frozen then (m, some PyError.frozenInstance) else (upd m, Option.none)

/-- Attribute assignment on a `RouteMeta` object, i.e. pydantic
`__setattr__` specialised to `RouteMeta.model_config`. -/
def RouteMeta.setattr (m : RouteMeta) (a : RouteMetaSet) : RouteMeta × Option PyError :=
  baseModelSetattr RouteMeta.model_config (fun x => RouteMeta.assign x a) m

/-- Shallow embedding of `api_route_decorator` (`src/routing.py` lines
231-277) applied to a class: build a `RouteMeta` from the given method,
path and servers and store it as the class's `_route_meta` (in-place
mutation of the class object). -/
def api_route_decorator (method : String) (path : String)
    (servers : Option (List String)) (cls : EndpointClass) : EndpointClass :=
  { cls with route_meta := some { method := method, path := path, servers := servers } }

/-- Shallow embedding of `APIRouter` (`src/routing.py` lines 280-313): a
router holding the optional global server list. -/
structure APIRouter where
  servers : Option (List String) := Option.none
deriving Repr, DecidableEq

/-- Python's `servers or self.servers` (`src/routing.py` line 331 and the
analogous lines of `post`/`put`/`patch`/`delete`): both `None` and the
empty list are falsy, so either falls back to the router-wide default. -/
def pyOrServers : Option (List String) → Option (List String) → Option (List String)
  | some l, b => if l = [] then b else some l
  | Option.none, b => b

/-- Shallow embedding of `APIRouter.get` (`src/routing.py` lines 315-331)
applied to a class:
`api_route_decorator(method="GET", path=path, servers=servers or self.servers)`. -/
def APIRouter.get (router : APIRouter) (path : String)
    (servers : Option (List String)) (cls : EndpointClass) : EndpointClass :=
  api_route_decorator "GET" path (pyOrServers servers router.servers) cls

/-- Shallow embedding of `APIRouter.post` (`src/routing.py` lines 333-350). -/
def APIRouter.post (router : APIRouter) (path : String)
    (servers : Option (List String)) (cls : EndpointClass) : EndpointClass :=
  api_route_decorator "POST" path (pyOrServers servers router.servers) cls

/-- Specification-style description of the body bucket, written from the
spec's words for the refinement claim about multiple `Body` fields: the
value of the **last** field in declaration order whose marker kind is
`body`, or `None` when there is no such field. -/
def lastBodyFieldValue (cls : EndpointClass) (inst : List (String × Value)) : Value :=
  cls.model_fields.foldl
    (fun b field_name =>
      match getParamInfoFromAnns cls.annotations field_name with
      | some p => if p.in_ = some ParamTypes.body then getattrVal inst field_name else b
      | Option.none => b)
    Value.none

/-- Decidable well-formedness check: every marker found on a field of the
class carries a discriminable kind (`in_` attribute present). -/
def markersAllKinded (cls : EndpointClass) : Bool :=
  cls.model_fields.all (fun field_name =>
    match getParamInfoFromAnns cls.annotations field_name with
    | some p => (p.in_).isSome
    | Option.none => true)

/-! ### Concrete marker objects and endpoint classes used as test fixtures -/

/-- The marker produced by `Query()` with no arguments. -/
def queryMarker : Param := { in_ := some ParamTypes.query }

/-- The marker produced by `Path()` with no arguments. -/
def pathMarker : Param := { in_ := some ParamTypes.path }

/-- The marker produced by `Header()` with no arguments: `convert_underscores`
defaults to `True`, no alias. -/
def headerPlainMarker : Param :=
  { in_ := some ParamTypes.header, convert_underscores := some true }

/-- The marker produced by `Header(alias="Authorization")`. -/
def headerAuthMarker : Param :=
  { in_ := some ParamTypes.header, alias_ := some "Authorization",
    convert_underscores := some true }

/-- The marker produced by `Body()` with no arguments. -/
def bodyMarker : Param :=
  { in_ := some ParamTypes.body, embed := some false,
    media_type := some "application/json" }

/-- The marker produced by a bare `Param()`: no `in_` attribute. -/
def bareParamMarker : Param := {}

theorem query_make_default_eq : Query.make {} = Except.ok queryMarker := rfl

theorem path_make_default_eq : Path.make {} = Except.ok pathMarker := rfl

theorem header_make_default_eq : Header.make {} = Except.ok headerPlainMarker := rfl

theorem header_make_alias_eq :
    Header.make { alias_ := some "Authorization" } = Except.ok headerAuthMarker := rfl

theorem body_make_default_eq : Body.make {} = Except.ok bodyMarker := rfl

theorem param_make_default_eq : Param.make {} = Except.ok bareParamMarker := rfl

/-- Endpoint class of end-to-end scenario 1:
`user_id: Annotated[int, Path()]`, `limit: Annotated[int, Query()] = 20`,
`token: Annotated[str, Header(alias="Authorization")]`. -/
def scenario1Class : EndpointClass :=
  { model_fields := ["user_id", "limit", "token"],
    annotations :=
      [("user_id", FieldAnn.annotated [AnnItem.param pathMarker]),
       ("limit", FieldAnn.annotated [AnnItem.param queryMarker]),
       ("token", FieldAnn.annotated [AnnItem.param headerAuthMarker])] }

/-- Instance `(user_id=7, limit=20, token="Bearer x")` of scenario 1. -/
def scenario1Inst : List (String × Value) :=
  [("user_id", Value.int 7), ("limit", Value.int 20), ("token", Value.str "Bearer x")]

/-- Endpoint class of end-to-end scenario 2: two `Body()`-marked fields
`data1`, `data2` in that declaration order. -/
def scenario2Class : EndpointClass :=
  { model_fields := ["data1", "data2"],
    annotations :=
      [("data1", FieldAnn.annotated [AnnItem.param bodyMarker]),
       ("data2", FieldAnn.annotated [AnnItem.param bodyMarker])] }

/-- Instance `(data1={"a": 1}, data2={"b": 2})` of scenario 2. -/
def scenario2Inst : List (String × Value) :=
  [("data1", Value.dict [("a", Value.int 1)]),
   ("data2", Value.dict [("b", Value.int 2)])]

/-- Endpoint class with a single field `x_request_id: Annotated[str, Header()]`
(no alias, `convert_underscores` left at its default `True`). -/
def underscoreHeaderClass : EndpointClass :=
  { model_fields := ["x_request_id"],
    annotations := [("x_request_id", FieldAnn.annotated [AnnItem.param headerPlainMarker])] }

/-- Instance `(x_request_id="req-1")`. -/
def underscoreHeaderInst : List (String × Value) :=
  [("x_request_id", Value.str "req-1")]

/-- Endpoint class with one field annotated with a bare `Param()` marker,
which carries no discriminable `in_` kind. -/
def bareMarkerClass : EndpointClass :=
  { model_fields := ["x"],
    annotations := [("x", FieldAnn.annotated [AnnItem.param bareParamMarker])] }

/-- Instance `(x=1)` of the bare-marker class. -/
def bareMarkerInst : List (String × Value) := [("x", Value.int 1)]

/-- Endpoint class whose marker-annotated field `x_request_id` is declared
on a base class: it appears in pydantic's `model_fields` but not in the
class's own `__annotations__` table. -/
def inheritedFieldClass : EndpointClass :=
  { model_fields := ["x_request_id"], annotations := [] }

/-- Endpoint class with one marked field `limit` and one unmarked field
`internal_flag: bool` (a plain, non-`Annotated` declared type). -/
def unmarkedFieldClass : EndpointClass :=
  { model_fields := ["limit", "internal_flag"],
    annotations :=
      [("limit", FieldAnn.annotated [AnnItem.param queryMarker]),
       ("internal_flag", FieldAnn.plain)] }

/-- An endpoint class with no fields, used as a decoration target. -/
def emptyClass : EndpointClass := { model_fields := [], annotations := [] }

/-! ### General lemmas about the classification loop -/

/-- The only error a single loop iteration can raise is the
`AttributeError` for a missing `in_` attribute. -/
theorem collectStep_error_eq (anns : List (String × FieldAnn))
    (inst : List (String × Value)) (acc : CollectResult) (field_name : String)
    (e : PyError) (h : collectStep anns inst acc field_name = Except.error e) :
    e = PyError.attributeError "in_" := by
  unfold collectStep at h
  split at h
  · exact absurd h (by simp)
  · split at h <;> simp_all

/-- A loop iteration on a field whose marker lookup returns `None` leaves
the accumulator unchanged. -/
theorem collectStep_of_no_param (anns : List (String × FieldAnn))
    (inst : List (String × Value)) (acc : CollectResult) (field_name : String)
    (h : getParamInfoFromAnns anns field_name = Option.none) :
    collectStep anns inst acc field_name = Except.ok acc := by
  unfold collectStep
  rw [h]

/-- A loop iteration on a field whose marker carries a kind succeeds. -/
theorem collectStep_isOk_of_kinded (anns : List (String × FieldAnn))
    (inst : List (String × Value)) (acc : CollectResult) (field_name : String)
    (h : (match getParamInfoFromAnns anns field_name with
          | some p => (p.in_).isSome
          | Option.none => true) = true) :
    ∃ acc', collectStep anns inst acc field_name = Except.ok acc' := by
  unfold collectStep
  split
  · exact ⟨acc, rfl⟩
  next p hp =>
    split
    next hin => rw [hp] at h; simp [hin] at h
    all_goals exact ⟨_, rfl⟩

/-- The only error the whole loop can raise is the `AttributeError` for a
missing `in_` attribute. -/
theorem collectGo_error_eq (anns : List (String × FieldAnn))
    (inst : List (String × Value)) (fields : List String) :
    ∀ (acc : CollectResult) (e : PyError),
      collectGo anns inst fields acc = Except.error e →
      e = PyError.attributeError "in_" := by
  induction fields with
  | nil => intro acc e h; simp [collectGo] at h
  | cons f rest ih =>
    intro acc e h
    rw [collectGo] at h
    cases hs : collectStep anns inst acc f with
    | ok acc' =>
      rw [hs] at h
      exact ih acc' e h
    | error e' =>
      rw [hs] at h
      injection h with he
      exact he ▸ collectStep_error_eq anns inst acc f e' hs

/-- When every marker on the listed fields carries a kind, the loop
returns normally from any accumulator. -/
theorem collectGo_isOk_of_kinded (anns : List (String × FieldAnn))
    (inst : List (String × Value)) (fields : List String)
    (h : fields.all (fun field_name =>
          match getParamInfoFromAnns anns field_name with
          | some p => (p.in_).isSome
          | Option.none => true) = true) :
    ∀ acc, ∃ r, collectGo anns inst fields acc = Except.ok r := by
  induction fields with
  | nil => intro acc; exact ⟨acc, rfl⟩
  | cons f rest ih =>
    rw [List.all_cons, Bool.and_eq_true] at h
    intro acc
    obtain ⟨acc', hs⟩ := collectStep_isOk_of_kinded anns inst acc f h.1
    obtain ⟨r, hr⟩ := ih h.2 acc'
    refine ⟨r, ?_⟩
    rw [collectGo, hs]
    exact hr

/-- Filtering a field whose marker lookup is `None` out of the iteration
list does not change the outcome of the loop. -/
theorem collectGo_filter_of_no_param (anns : List (String × FieldAnn))
    (inst : List (String × Value)) (field_name : String)
    (hnone : getParamInfoFromAnns anns field_name = Option.none)
    (fields : List String) :
    ∀ acc, collectGo anns inst (fields.filter (fun n => n != field_name)) acc =
      collectGo anns inst fields acc := by
  induction fields with
  | nil => intro acc; rfl
  | cons f rest ih =>
    intro acc
    by_cases hf : f = field_name
    · subst hf
      have hkeep : (f :: rest).filter (fun n => n != f) = rest.filter (fun n => n != f) := by
        simp [List.filter_cons]
      rw [hkeep, ih acc, collectGo, collectStep_of_no_param anns inst acc f hnone]
    · have hkeep : (f :: rest).filter (fun n => n != field_name) =
          f :: rest.filter (fun n => n != field_name) := by
        simp [List.filter_cons, hf]
      rw [hkeep, collectGo, collectGo]
      cases hs : collectStep anns inst acc f with
      | ok acc' => exact ih acc'
      | error e => rfl

/-- The body bucket computed by the loop is the fold that keeps the value
of the last body-marked field. -/
theorem collectGo_body_eq (anns : List (String × FieldAnn))
    (inst : List (String × Value)) (fields : List String) :
    ∀ (acc r : CollectResult),
      collectGo anns inst fields acc = Except.ok r →
      r.body_data = fields.foldl
        (fun b field_name =>
          match getParamInfoFromAnns anns field_name with
          | some p => if p.in_ = some ParamTypes.body then getattrVal inst field_name else b
          | Option.none => b) acc.body_data := by
  induction fields with
  | nil =>
    intro acc r h
    simp only [collectGo] at h
    injection h with h'
    rw [← h']
    rfl
  | cons f rest ih =>
    intro acc r h
    rw [collectGo] at h
    cases hs : collectStep anns inst acc f with
    | error e => rw [hs] at h; cases h
    | ok acc' =>
      rw [hs] at h
      have hb := ih acc' r h
      rw [List.foldl_cons]
      rw [hb]
      congr 1
      unfold collectStep at hs
      split at hs
      next hp =>
        injection hs with h'
        rw [hp, ← h']
      next p hp =>
        split at hs
        next hin => cases hs
        all_goals
          rename_i hin
          injection hs with h'
          rw [hp, ← h']
          simp [hin]

/-- Whether an `Except` computation returned normally. -/
def isOkB : Except PyError α → Bool
  | Except.ok _ => true
  | Except.error _ => false

/-! ### The claims -/

/-- Claim C1, evaluated at its failing input: for the field `x_request_id`
marked `Header()` with no alias and `convert_underscores` stored as `True`,
classification uses the field name `"x_request_id"` literally as the wire
name — `_get_param_name` never consults `convert_underscores` — instead of
the `"X-Request-Id"` form the claim (and the `Header` docstring) describe. -/
theorem header_convert_underscores_ignored :
    headerPlainMarker.convert_underscores = some true ∧
    headerPlainMarker.alias_ = Option.none ∧
    collectParams underscoreHeaderClass underscoreHeaderInst =
      Except.ok { query_params := [], path_params := [],
                  header_params := [("x_request_id", Value.str "req-1")],
                  body_data := Value.none } ∧
    "x_request_id" ≠ "X-Request-Id" :=
  ⟨rfl, rfl, rfl, by decide⟩

/-- Claim C2, counterexample to the stated error type: supplying a literal
`default` to `Query(...)` raises a `TypeError` (duplicate `default` keyword
in the `super().__init__` call), not a `ConfigurationError` — indeed no
`ConfigurationError` class exists in the repository. -/
theorem query_literal_default_type_error :
    Query.make { default := some (Value.int 5) } = Except.error dupDefaultError ∧
    PyError.isConfigurationError dupDefaultError = false :=
  ⟨rfl, rfl⟩

/-- Claim C2 as amended: for every `Query`/`Header`/`Body` marker
construction, a literal `default` argument raises `TypeError` (so the
construction does fail, but not with `ConfigurationError`), while
constructing with only a `default_factory` argument succeeds. -/
theorem marker_default_rejected_factory_accepted (args : MarkerArgs) :
    ((args.default).isSome = true →
      Query.make args = Except.error dupDefaultError ∧
      Header.make args = Except.error dupDefaultError ∧
      Body.make args = Except.error dupDefaultError) ∧
    (args.default = Option.none →
      isOkB (Query.make args) = true ∧ isOkB (Header.make args) = true ∧
      isOkB (Body.make args) = true) := by
  constructor
  · intro h
    refine ⟨?_, ?_, ?_⟩ <;> simp [Query.make, Header.make, Body.make, h]
  · intro h
    refine ⟨?_, ?_, ?_⟩ <;> simp [Query.make, Header.make, Body.make, isOkB, h]

theorem marker_default_rejected_factory_accepted_witness :
    Query.make { default := some (Value.int 5) } = Except.error dupDefaultError ∧
    isOkB (Query.make { default_factory := true }) = true :=
  ⟨((marker_default_rejected_factory_accepted { default := some (Value.int 5) }).1 rfl).1,
   ((marker_default_rejected_factory_accepted { default_factory := true }).2 rfl).1⟩

/-- Claim C3, counterexample: on a router with global servers `["A"]`,
decorating with the explicit per-route list `[]` attaches `["A"]`, not the
explicit list — `servers or self.servers` treats the empty list as absent. -/
theorem route_empty_servers_falls_back :
    (APIRouter.get { servers := some ["A"] } "/p" (some []) emptyClass).route_meta =
      some { method := "GET", path := "/p", servers := some ["A"] } ∧
    (some ["A"] : Option (List String)) ≠ some ([] : List String) :=
  ⟨rfl, by decide⟩

/-- Claim C3 as amended: a **non-empty** explicit per-route servers list is
attached exactly and overrides the router-wide default; omitting per-route
servers attaches the router-wide default (hence `None` when both are
absent). -/
theorem router_servers_override_law (router : APIRouter) (path : String)
    (servers : Option (List String)) (cls : EndpointClass) :
    (∀ l, servers = some l → l ≠ [] →
      (APIRouter.get router path servers cls).route_meta =
        some { method := "GET", path := path, servers := some l }) ∧
    (servers = Option.none →
      (APIRouter.get router path servers cls).route_meta =
        some { method := "GET", path := path, servers := router.servers }) := by
  constructor
  · intro l hl hne
    subst hl
    simp [APIRouter.get, api_route_decorator, pyOrServers, hne]
  · intro h
    subst h
    rfl

theorem router_servers_override_law_witness :
    (APIRouter.get { servers := some ["A"] } "/p" (some ["B"]) emptyClass).route_meta =
      some { method := "GET", path := "/p", servers := some ["B"] } ∧
    (APIRouter.get { servers := some ["A"] } "/p" Option.none emptyClass).route_meta =
      some { method := "GET", path := "/p", servers := some ["A"] } ∧
    (APIRouter.get { servers := Option.none } "/p" Option.none emptyClass).route_meta =
      some { method := "GET", path := "/p", servers := Option.none } :=
  ⟨(router_servers_override_law { servers := some ["A"] } "/p" (some ["B"]) emptyClass).1
      ["B"] rfl (by decide),
   (router_servers_override_law { servers := some ["A"] } "/p" Option.none emptyClass).2 rfl,
   (router_servers_override_law { servers := Option.none } "/p" Option.none emptyClass).2 rfl⟩

/-- Claim C4, counterexample to the stated error type: classifying an
instance whose field carries a bare `Param()` marker (no discriminable
kind) fails with `AttributeError` on the `in_` attribute, not with
`ConfigurationError`. -/
theorem bare_param_raises_attribute_error :
    collectParams bareMarkerClass bareMarkerInst =
      Except.error (PyError.attributeError "in_") ∧
    PyError.isConfigurationError (PyError.attributeError "in_") = false :=
  ⟨rfl, rfl⟩

/-- Claim C4 as amended: classification never validates field values; it
returns normally for every instance whose markers all carry a kind, and the
only error it can raise is the `AttributeError` for a marker without a
discriminable `in_` kind (not `ConfigurationError`). -/
theorem collect_params_error_discipline (cls : EndpointClass)
    (inst : List (String × Value)) :
    (markersAllKinded cls = true → isOkB (collectParams cls inst) = true) ∧
    (∀ e, collectParams cls inst = Except.error e →
      e = PyError.attributeError "in_") := by
  constructor
  · intro h
    unfold markersAllKinded at h
    obtain ⟨r, hr⟩ := collectGo_isOk_of_kinded cls.annotations inst cls.model_fields h
      { query_params := [], path_params := [], header_params := [], body_data := Value.none }
    unfold collectParams
    rw [hr]
    rfl
  · intro e he
    exact collectGo_error_eq cls.annotations inst cls.model_fields _ e he

theorem collect_params_error_discipline_witness :
    markersAllKinded scenario1Class = true ∧
    isOkB (collectParams scenario1Class scenario1Inst) = true ∧
    collectParams bareMarkerClass bareMarkerInst =
      Except.error (PyError.attributeError "in_") ∧
    PyError.attributeError "in_" = PyError.attributeError "in_" :=
  ⟨rfl, (collect_params_error_discipline scenario1Class scenario1Inst).1 rfl, rfl,
   (collect_params_error_discipline bareMarkerClass bareMarkerInst).2
     (PyError.attributeError "in_") rfl⟩

/-- Claim C5: every attribute assignment on a `RouteMeta` object — whether
to `method`, `path` or `servers` — raises the pydantic frozen-instance
error and leaves the stored metadata unchanged; it never silently
no-ops. -/
theorem route_meta_setattr_frozen (m : RouteMeta) (a : RouteMetaSet) :
    RouteMeta.setattr m a = (m, some PyError.frozenInstance) :=
  rfl

/-- Claim C6: classification of the scenario-1 instance
`(user_id=7, limit=20, token="Bearer x")` with markers
`{user_id: Path, limit: Query, token: Header alias "Authorization"}`
yields `query={"limit": 20}`, `path={"user_id": 7}`,
`headers={"Authorization": "Bearer x"}`, `body=None`. -/
theorem scenario_one_classification :
    collectParams scenario1Class scenario1Inst =
      Except.ok { query_params := [("limit", Value.int 20)],
                  path_params := [("user_id", Value.int 7)],
                  header_params := [("Authorization", Value.str "Bearer x")],
                  body_data := Value.none } :=
  rfl

/-- Claim C7: a field whose declared type carries no `Param` marker
contributes nothing to classification — removing it from the iterated
field list leaves the entire result (all three maps and the body)
unchanged, for every instance and hence every field value. -/
theorem unmarked_field_excluded (cls : EndpointClass) (inst : List (String × Value))
    (field_name : String)
    (h : getParamInfoFromAnns cls.annotations field_name = Option.none) :
    collectParams
        { cls with model_fields := cls.model_fields.filter (fun n => n != field_name) }
        inst =
      collectParams cls inst := by
  unfold collectParams
  exact collectGo_filter_of_no_param cls.annotations inst field_name h cls.model_fields _

theorem unmarked_field_excluded_witness :
    getParamInfoFromAnns unmarkedFieldClass.annotations "internal_flag" = Option.none ∧
    collectParams
        { unmarkedFieldClass with
          model_fields := unmarkedFieldClass.model_fields.filter (fun n => n != "internal_flag") }
        [("limit", Value.int 10), ("internal_flag", Value.bool false)] =
      collectParams unmarkedFieldClass
        [("limit", Value.int 10), ("internal_flag", Value.bool false)] :=
  ⟨rfl, unmarked_field_excluded unmarkedFieldClass
    [("limit", Value.int 10), ("internal_flag", Value.bool false)] "internal_flag" rfl⟩

/-- Claim C8, counterexample: a marker whose alias is set to the empty
string is not used verbatim — `if param_info.alias:` treats `""` as falsy,
so the field name is used instead. -/
theorem empty_alias_uses_field_name :
    getParamName { in_ := some ParamTypes.query, alias_ := some "" } "page" = "page" ∧
    ("page" : String) ≠ "" :=
  ⟨rfl, by decide⟩

/-- Claim C8 as amended: a marker with a **non-empty** alias has that alias
used verbatim as the wire name, whatever the field name and whatever the
marker's `convert_underscores` attribute. -/
theorem nonempty_alias_verbatim (p : Param) (field_name a : String)
    (hp : p.alias_ = some a) (ha : a ≠ "") :
    getParamName p field_name = a := by
  unfold getParamName
  rw [hp]
  simp [ha]

theorem nonempty_alias_verbatim_witness :
    getParamName { in_ := some ParamTypes.header, alias_ := some "Authorization",
                   convert_underscores := some false } "token" = "Authorization" :=
  nonempty_alias_verbatim
    { in_ := some ParamTypes.header, alias_ := some "Authorization",
      convert_underscores := some false } "token" "Authorization" rfl (by decide)

/-- Claim C9: the body bucket is the value of the last body-marked field in
declaration order (each body field overwrites the previous body value); in
particular the scenario-2 instance `(data1={"a": 1}, data2={"b": 2})`
classifies to `body == {"b": 2}`. -/
theorem last_body_field_wins :
    (∀ (cls : EndpointClass) (inst : List (String × Value)) (r : CollectResult),
        collectParams cls inst = Except.ok r →
        r.body_data = lastBodyFieldValue cls inst) ∧
    collectParams scenario2Class scenario2Inst =
      Except.ok { query_params := [], path_params := [], header_params := [],
                  body_data := Value.dict [("b", Value.int 2)] } := by
  constructor
  · intro cls inst r h
    unfold collectParams at h
    have hb := collectGo_body_eq cls.annotations inst cls.model_fields _ r h
    unfold lastBodyFieldValue
    exact hb
  · rfl

theorem last_body_field_wins_witness :
    collectParams scenario2Class scenario2Inst =
      Except.ok { query_params := [], path_params := [], header_params := [],
                  body_data := Value.dict [("b", Value.int 2)] } ∧
    Value.dict [("b", Value.int 2)] = lastBodyFieldValue scenario2Class scenario2Inst :=
  ⟨rfl,
   last_body_field_wins.1 scenario2Class scenario2Inst
     { query_params := [], path_params := [], header_params := [],
       body_data := Value.dict [("b", Value.int 2)] } rfl⟩

/-- Claim C10: a marker-annotated field declared on a base class appears in
`model_fields` but not in the class's own `__annotations__` table, so
classification excludes it from every bucket (removing it from the field
list changes nothing); the concrete contrast shows the same field included
when its marker is declared directly on the class. -/
theorem inherited_annotated_field_excluded (cls : EndpointClass)
    (inst : List (String × Value)) (field_name : String)
    (_hmem : field_name ∈ cls.model_fields)
    (h : List.lookup field_name cls.annotations = Option.none) :
    (collectParams
        { cls with model_fields := cls.model_fields.filter (fun n => n != field_name) }
        inst =
      collectParams cls inst) ∧
    collectParams inheritedFieldClass underscoreHeaderInst =
      Except.ok { query_params := [], path_params := [], header_params := [],
                  body_data := Value.none } ∧
    collectParams underscoreHeaderClass underscoreHeaderInst =
      Except.ok { query_params := [], path_params := [],
                  header_params := [("x_request_id", Value.str "req-1")],
                  body_data := Value.none } := by
  refine ⟨?_, rfl, rfl⟩
  have hp : getParamInfoFromAnns cls.annotations field_name = Option.none := by
    unfold getParamInfoFromAnns
    rw [h]
  unfold collectParams
  exact collectGo_filter_of_no_param cls.annotations inst field_name hp cls.model_fields _

theorem inherited_annotated_field_excluded_witness :
    ("x_request_id" ∈ inheritedFieldClass.model_fields) ∧
    List.lookup "x_request_id" inheritedFieldClass.annotations = Option.none ∧
    collectParams
        { inheritedFieldClass with
          model_fields := inheritedFieldClass.model_fields.filter (fun n => n != "x_request_id") }
        underscoreHeaderInst =
      collectParams inheritedFieldClass underscoreHeaderInst :=
  ⟨by decide, rfl,
   (inherited_annotated_field_excluded inheritedFieldClass underscoreHeaderInst
     "x_request_id" (by decide) rfl).1⟩

end Stoma
